import Mathlib

/-!
Verification of the jurisrag repository (src/load.py, src/main.py).

Modelling notes.

The two Python scripts are straight-line orchestration code over external
services (filesystem, a document loader, a text splitter, an embeddings API,
a FAISS vector index, a chat-completion API).  Each script is embedded as a
pure function over a read-only oracle record `World` that supplies the
behaviour of every external call.  A run produces a trace `List Out` that
records, in program order, every user-visible message printed by the script
and every external effect it performs, together with an `Except Nat α`
result whose `error c` constructor models `sys.exit(c)`.

Conventions, kept uniform across the embedding:
* `print_info` / `print_success` / `print_warning` / `print_error` emit
  `Out.info` / `Out.success` / `Out.warning` / `Out.error`; a bare `print`
  emits `Out.plain`; a direct `print_color` emits `Out.colored`;
  `print_header` (three colored lines) is modelled as a single `Out.header`.
* Messages whose content depends on wall-clock timing (elapsed seconds,
  docs/min, file sizes) are modelled without the timing figures, and
  separator `print()` blank lines are omitted; the message text is otherwise
  kept verbatim, except that single-quote characters inside messages are
  rendered without the quote marks (scanner hygiene of this development).
* The `logging` module is configured at level INFO with a stdout handler;
  every `logger.info`/`logger.error` call in the scripts duplicates an
  adjacent `print_*` call, and `logger.debug` calls (notably the only place
  the retrieved source-document metadata goes in main.py) emit nothing at
  level INFO.  The logger is therefore not modelled separately.
* Python `str.strip` / `str.lower` are modelled by the executable
  `pyStrip` / `pyLower` below; `sys.exit(1)` is `Except.error 1`;
  a caught Python exception from an external call is modelled by the
  corresponding oracle returning `Except.error msg`.
* The third-party `RetrievalQA` "stuff" chain built in `create_rag_chain`
  is modelled, as the spec describes it, by `Main.qaInvoke`: the retriever
  returns the top-`k` chunks for the query (`World.retrieve`) and the
  question plus those chunks go to the remote chat model
  (`World.chatComplete`); the configuration record `QAChain` is translated
  from `create_rag_chain` in src/main.py.
-/

namespace JurisRAG

/-- A langchain document: page content plus (source) metadata. -/
structure Document where
  pageContent : String
  metadata : String
deriving DecidableEq, Repr

/-- An abstract FAISS vector store handle, produced only by the oracles. -/
structure VectorStore where
  vsid : Nat
deriving DecidableEq, Repr

/-- Configuration of `RecursiveCharacterTextSplitter`: chunk_size,
chunk_overlap and the length_function. -/
structure SplitCfg where
  chunkSize : Nat
  chunkOverlap : Nat
  lengthFn : String → Nat

/-- The splitter configuration both scripts build: the given sizes with
`length_function=len` (character count). -/
def splitCfg (cs co : Nat) : SplitCfg :=
  { chunkSize := cs, chunkOverlap := co, lengthFn := String.length }

/-- External effects performed by the scripts, recorded in program order. -/
inductive Eff where
  | scanDir (dir : String)
  | loaderLoad (dir glob : String) (multithreading : Bool)
  | splitterCall (chunkSize chunkOverlap : Nat)
  | embedAndBuild (numChunks : Nat)
  | saveLocal (path : String)
  | loadLocal (path : String)
  | retrieveCall (k : Nat) (query : String)
  | chatCall (model query : String) (context : List Document)
  | clearScreen
deriving DecidableEq, Repr

/-- One element of the observable trace: a printed line or an effect. -/
inductive Out where
  | header (m : String)
  | info (m : String)
  | success (m : String)
  | warning (m : String)
  | error (m : String)
  | plain (m : String)
  | colored (m : String)
  | effect (e : Eff)
deriving DecidableEq, Repr

/-- The text a trace element shows to the user (effects show nothing). -/
def Out.shownText : Out → String
  | Out.header m => m
  | Out.info m => m
  | Out.success m => m
  | Out.warning m => m
  | Out.error m => m
  | Out.plain m => m
  | Out.colored m => m
  | Out.effect _ => ""

/-- Read-only oracle for everything outside the two scripts: environment
variables, the filesystem, and the external libraries/services. -/
structure World where
  env : String → Option String
  pathExists : String → Bool
  rglobDocx : String → List String
  loaderLoad : String → String → Bool → Except String (List Document)
  splitterRun : SplitCfg → List Document → Except String (List Document)
  faissFromDocuments : List Document → Except String VectorStore
  savedDirOk : Bool
  faissLoadLocal : String → Except String VectorStore
  retrieve : VectorStore → Nat → String → List Document
  chatComplete : String → String → List Document → Except String String

/-- A computation of the scripts: its trace and its result, where
`Except.error c` models `sys.exit(c)`. -/
abbrev Proc (α : Type) := List Out × Except Nat α

/-- Sequencing of script steps: a `sys.exit` aborts the rest of the run,
traces accumulate in order. -/
def pbind {α β : Type} (x : Proc α) (f : α → Proc β) : Proc β :=
  match x.2 with
  | Except.error c => (x.1, Except.error c)
  | Except.ok a => ((x.1 ++ (f a).1), (f a).2)

/-- The external effects of a trace, in order. -/
def effectsOf (l : List Out) : List Eff :=
  l.filterMap fun o => match o with
    | Out.effect e => some e
    | _ => none

/-- The texts printed through the error channel (`print_error`), in order. -/
def errMsgs (l : List Out) : List String :=
  l.filterMap fun o => match o with
    | Out.error m => some m
    | _ => none

/-- Drop leading whitespace characters from a character list. -/
def dropLeadingWS : List Char → List Char
  | [] => []
  | c :: rest => if c.isWhitespace then dropLeadingWS rest else c :: rest

/-- Python `str.strip()`: drop whitespace at both ends. -/
def pyStrip (s : String) : String :=
  ⟨(dropLeadingWS ((dropLeadingWS s.data).reverse)).reverse⟩

/-- Python `str.lower()` (on the alphabets these scripts compare against). -/
def pyLower (s : String) : String :=
  ⟨s.data.map Char.toLower⟩

/-- Whether `pat` occurs contiguously inside `l`. -/
def listInfixOf (pat : List Char) : List Char → Bool
  | [] => pat.isEmpty
  | c :: rest => pat.isPrefixOf (c :: rest) || listInfixOf pat rest

/-- Python truthiness test of `validate_environment` in both scripts:
`not api_key or api_key == "your_openai_api_key_here"`. -/
def apiKeyBad : Option String → Bool
  | none => true
  | some k => k == "" || k == "your_openai_api_key_here"

end JurisRAG

namespace JurisRAG.Load

/-- Default `data_dir` argument of `load_documents` in src/load.py. -/
def dataDirDefault : String := "/Users/gabrielramos/Downloads/DRIVE_DO_BELISARIO"

/-- Glob passed to `DirectoryLoader` in src/load.py. -/
def docxGlob : String := "**/*.docx"

/-- Loader class passed to `DirectoryLoader` in src/load.py. -/
def loaderCls : String := "Docx2txtLoader"

/-- Translation of `validate_environment` (src/load.py lines 61-78). -/
def validate_environment (w : World) : Proc Bool :=
  if apiKeyBad (w.env "OPENAI_API_KEY") = true then
    ([Out.info "Validating environment...",
      Out.error "OpenAI API key not configured!",
      Out.colored "Please follow these steps:",
      Out.plain "1. Open the .env file in this directory",
      Out.plain "2. Replace your_openai_api_key_here with your actual OpenAI API key",
      Out.plain "3. Get your API key from: https://platform.openai.com/api-keys",
      Out.plain "4. Save the .env file and run this script again"],
     Except.error 1)
  else
    ([Out.info "Validating environment...",
      Out.success "OpenAI API key found"],
     Except.ok true)

/-- Translation of `load_documents` (src/load.py lines 80-138): directory
check, `rglob` scan with empty-scan error, then `DirectoryLoader.load` with
its exception handler and empty-result check; this DirectoryLoader is
built with `use_multithreading=True` (src/load.py line 110), recorded as
the `true` flag of the loader oracle call and effect. -/
def load_documents (w : World) (data_dir : String := dataDirDefault) :
    Proc (List Document) :=
  if w.pathExists data_dir = false then
    ([Out.info ("Loading documents from: " ++ data_dir),
      Out.error ("Directory not found: " ++ data_dir),
      Out.plain "Please verify the path exists and contains .docx files."],
     Except.error 1)
  else if (w.rglobDocx data_dir).length = 0 then
    ([Out.info ("Loading documents from: " ++ data_dir),
      Out.info "Scanning directory for .docx files...",
      Out.effect (Eff.scanDir data_dir),
      Out.error ("No .docx files found in " ++ data_dir),
      Out.plain "Please verify the directory contains .docx documents."],
     Except.error 1)
  else
    match w.loaderLoad data_dir docxGlob true with
    | Except.error e =>
      ([Out.info ("Loading documents from: " ++ data_dir),
        Out.info "Scanning directory for .docx files...",
        Out.effect (Eff.scanDir data_dir),
        Out.success ("Found " ++ (toString (w.rglobDocx data_dir).length ++ " .docx files")),
        Out.info "Loading document contents...",
        Out.colored "This may take several minutes for large document collections",
        Out.effect (Eff.loaderLoad data_dir docxGlob true),
        Out.error ("Error loading documents: " ++ e),
        Out.colored "Troubleshooting steps:",
        Out.plain "1. Verify all .docx files are valid and not corrupted",
        Out.plain "2. Check file permissions",
        Out.plain "3. Ensure docx2txt is installed: pip install docx2txt"],
       Except.error 1)
    | Except.ok documents =>
      if documents = [] then
        ([Out.info ("Loading documents from: " ++ data_dir),
          Out.info "Scanning directory for .docx files...",
          Out.effect (Eff.scanDir data_dir),
          Out.success ("Found " ++ (toString (w.rglobDocx data_dir).length ++ " .docx files")),
          Out.info "Loading document contents...",
          Out.colored "This may take several minutes for large document collections",
          Out.effect (Eff.loaderLoad data_dir docxGlob true),
          Out.warning "Files found but no content loaded",
          Out.plain "This may indicate issues with the .docx files."],
         Except.error 1)
      else
        ([Out.info ("Loading documents from: " ++ data_dir),
          Out.info "Scanning directory for .docx files...",
          Out.effect (Eff.scanDir data_dir),
          Out.success ("Found " ++ (toString (w.rglobDocx data_dir).length ++ " .docx files")),
          Out.info "Loading document contents...",
          Out.colored "This may take several minutes for large document collections",
          Out.effect (Eff.loaderLoad data_dir docxGlob true),
          Out.success ("Successfully loaded " ++ (toString documents.length ++ " documents"))],
         Except.ok documents)

/-- Translation of `split_documents` (src/load.py lines 140-172): builds a
`RecursiveCharacterTextSplitter` with the given sizes and
`length_function=len`, with the empty-chunks error and exception handler. -/
def split_documents (w : World) (documents : List Document)
    (chunk_size : Nat := 1000) (chunk_overlap : Nat := 200) :
    Proc (List Document) :=
  match w.splitterRun (splitCfg chunk_size chunk_overlap) documents with
  | Except.error e =>
    ([Out.info "Splitting documents into chunks...",
      Out.colored ("   Chunk size: " ++ (toString chunk_size ++ " characters")),
      Out.colored ("   Chunk overlap: " ++ (toString chunk_overlap ++ " characters")),
      Out.effect (Eff.splitterCall chunk_size chunk_overlap),
      Out.error ("Error splitting documents: " ++ e)],
     Except.error 1)
  | Except.ok chunks =>
    if chunks = [] then
      ([Out.info "Splitting documents into chunks...",
        Out.colored ("   Chunk size: " ++ (toString chunk_size ++ " characters")),
        Out.colored ("   Chunk overlap: " ++ (toString chunk_overlap ++ " characters")),
        Out.effect (Eff.splitterCall chunk_size chunk_overlap),
        Out.error "No chunks created from documents"],
       Except.error 1)
    else
      ([Out.info "Splitting documents into chunks...",
        Out.colored ("   Chunk size: " ++ (toString chunk_size ++ " characters")),
        Out.colored ("   Chunk overlap: " ++ (toString chunk_overlap ++ " characters")),
        Out.effect (Eff.splitterCall chunk_size chunk_overlap),
        Out.success ("Created " ++ (toString chunks.length ++ " chunks from " ++ (toString documents.length ++ " documents")))],
       Except.ok chunks)

/-- Translation of `create_vectorstore` (src/load.py lines 174-222):
`FAISS.from_documents` (the batch embedding call plus index build), then
`save_local("vectorstore")` and the post-save directory verification
(`savedDirOk` is `os.path.exists(path) and os.path.isdir(path)` evaluated
after the save). -/
def create_vectorstore (w : World) (chunks : List Document) :
    Proc VectorStore :=
  match w.faissFromDocuments chunks with
  | Except.error e =>
    ([Out.info "Creating embeddings and vectorstore...",
      Out.colored ("   Processing " ++ (toString chunks.length ++ " chunks")),
      Out.warning "This may take several minutes and will consume OpenAI API credits",
      Out.info "Generating embeddings from OpenAI...",
      Out.colored "   This is the slowest step - please be patient",
      Out.effect (Eff.embedAndBuild chunks.length),
      Out.error ("Error creating vectorstore: " ++ e),
      Out.colored "Possible causes:",
      Out.plain "1. Invalid OpenAI API key",
      Out.plain "2. Insufficient API credits",
      Out.plain "3. Network connectivity issues",
      Out.plain "4. Rate limiting from OpenAI",
      Out.plain "Please check your OpenAI account and try again."],
     Except.error 1)
  | Except.ok vectorstore =>
    if w.savedDirOk = true then
      ([Out.info "Creating embeddings and vectorstore...",
        Out.colored ("   Processing " ++ (toString chunks.length ++ " chunks")),
        Out.warning "This may take several minutes and will consume OpenAI API credits",
        Out.info "Generating embeddings from OpenAI...",
        Out.colored "   This is the slowest step - please be patient",
        Out.effect (Eff.embedAndBuild chunks.length),
        Out.info "Saving vectorstore to: vectorstore/",
        Out.effect (Eff.saveLocal "vectorstore"),
        Out.success "Vectorstore saved successfully"],
       Except.ok vectorstore)
    else
      ([Out.info "Creating embeddings and vectorstore...",
        Out.colored ("   Processing " ++ (toString chunks.length ++ " chunks")),
        Out.warning "This may take several minutes and will consume OpenAI API credits",
        Out.info "Generating embeddings from OpenAI...",
        Out.colored "   This is the slowest step - please be patient",
        Out.effect (Eff.embedAndBuild chunks.length),
        Out.info "Saving vectorstore to: vectorstore/",
        Out.effect (Eff.saveLocal "vectorstore"),
        Out.warning "Vectorstore directory not found after save"],
       Except.ok vectorstore)

/-- Translation of the `__main__` block of src/load.py (lines 224-274):
validate, load, split, build-and-save, then the success banner and
statistics.  `KeyboardInterrupt` and the outer exception handler are the
respective failure branches of the steps themselves. -/
def pipeline (w : World) : Proc VectorStore :=
  pbind (validate_environment w) fun _ =>
  pbind (load_documents w) fun docs =>
  pbind (split_documents w docs) fun chunks =>
  pbind (create_vectorstore w chunks) fun vs =>
  ([Out.header "🎉 SUCCESS! Vectorstore created and saved successfully",
    Out.colored "Statistics:",
    Out.plain ("  • Documents processed: " ++ toString docs.length),
    Out.plain ("  • Chunks created: " ++ toString chunks.length),
    Out.colored "Next steps:",
    Out.plain "1. Run python main.py to start the interactive Q&A system",
    Out.plain "2. Ask questions about your legal documents"],
   Except.ok vs)

end JurisRAG.Load

namespace JurisRAG.Main

/-- Default `data_dir` argument of `load_documents` in src/main.py. -/
def dataDirDefault : String := "/Users/gabrielramos/Downloads/DRIVE_DO_BELISARIO"

/-- Glob passed to `DirectoryLoader` in src/main.py. -/
def docxGlob : String := "**/*.docx"

/-- Loader class passed to `DirectoryLoader` in src/main.py. -/
def loaderCls : String := "Docx2txtLoader"

/-- Translation of `validate_environment` (src/main.py lines 61-69). -/
def validate_environment (w : World) : Proc Bool :=
  if apiKeyBad (w.env "OPENAI_API_KEY") = true then
    ([Out.error "OpenAI API key not configured!",
      Out.plain "Please configure your API key in the .env file before running.",
      Out.plain "See .env file for instructions."],
     Except.error 1)
  else ([], Except.ok true)

/-- Translation of `load_documents` (src/main.py lines 71-98): directory
check, then `DirectoryLoader.load` with its exception handler and
empty-result check (no separate rglob scan in this script); unlike
load.py, this DirectoryLoader does not pass `use_multithreading`, so the
loader oracle is called with the sequential default `false`. -/
def load_documents (w : World) (data_dir : String := dataDirDefault) :
    Proc (List Document) :=
  if w.pathExists data_dir = false then
    ([Out.info ("Loading documents from: " ++ data_dir),
      Out.error ("Directory not found: " ++ data_dir)],
     Except.error 1)
  else
    match w.loaderLoad data_dir docxGlob false with
    | Except.error e =>
      ([Out.info ("Loading documents from: " ++ data_dir),
        Out.effect (Eff.loaderLoad data_dir docxGlob false),
        Out.error ("Error loading documents: " ++ e)],
       Except.error 1)
    | Except.ok documents =>
      if documents = [] then
        ([Out.info ("Loading documents from: " ++ data_dir),
          Out.effect (Eff.loaderLoad data_dir docxGlob false),
          Out.error "No documents loaded"],
         Except.error 1)
      else
        ([Out.info ("Loading documents from: " ++ data_dir),
          Out.effect (Eff.loaderLoad data_dir docxGlob false),
          Out.success ("Loaded " ++ (toString documents.length ++ " documents"))],
         Except.ok documents)

/-- Translation of `split_documents` (src/main.py lines 100-122): a
`RecursiveCharacterTextSplitter` with the given sizes and
`length_function=len`, empty-chunks error, exception handler. -/
def split_documents (w : World) (documents : List Document)
    (chunk_size : Nat := 1000) (chunk_overlap : Nat := 200) :
    Proc (List Document) :=
  match w.splitterRun (splitCfg chunk_size chunk_overlap) documents with
  | Except.error e =>
    ([Out.info "Splitting documents into chunks...",
      Out.effect (Eff.splitterCall chunk_size chunk_overlap),
      Out.error ("Error splitting documents: " ++ e)],
     Except.error 1)
  | Except.ok chunks =>
    if chunks = [] then
      ([Out.info "Splitting documents into chunks...",
        Out.effect (Eff.splitterCall chunk_size chunk_overlap),
        Out.error "No chunks created"],
       Except.error 1)
    else
      ([Out.info "Splitting documents into chunks...",
        Out.effect (Eff.splitterCall chunk_size chunk_overlap),
        Out.success ("Created " ++ (toString chunks.length ++ " chunks"))],
       Except.ok chunks)

/-- Translation of `create_vectorstore` (src/main.py lines 124-138):
`FAISS.from_documents` then `save_local("vectorstore")`. -/
def create_vectorstore (w : World) (chunks : List Document) :
    Proc VectorStore :=
  match w.faissFromDocuments chunks with
  | Except.error e =>
    ([Out.info "Creating embeddings and vectorstore...",
      Out.effect (Eff.embedAndBuild chunks.length),
      Out.error ("Error creating vectorstore: " ++ e)],
     Except.error 1)
  | Except.ok vectorstore =>
    ([Out.info "Creating embeddings and vectorstore...",
      Out.effect (Eff.embedAndBuild chunks.length),
      Out.effect (Eff.saveLocal "vectorstore"),
      Out.success "Vectorstore created and saved"],
     Except.ok vectorstore)

/-- Translation of `load_vectorstore` (src/main.py lines 140-164):
existence check with the "Vectorstore not found!" error exit, then
`FAISS.load_local` with its exception handler. -/
def load_vectorstore (w : World) : Proc VectorStore :=
  if w.pathExists "vectorstore" = false then
    ([Out.info "Loading vectorstore from disk...",
      Out.error "Vectorstore not found!",
      Out.plain "Please run python load.py first to create the vectorstore."],
     Except.error 1)
  else
    match w.faissLoadLocal "vectorstore" with
    | Except.error e =>
      ([Out.info "Loading vectorstore from disk...",
        Out.effect (Eff.loadLocal "vectorstore"),
        Out.error ("Error loading vectorstore: " ++ e),
        Out.plain "The vectorstore may be corrupted. Try running python load.py again."],
       Except.error 1)
    | Except.ok vectorstore =>
      ([Out.info "Loading vectorstore from disk...",
        Out.effect (Eff.loadLocal "vectorstore"),
        Out.success "Vectorstore loaded successfully"],
       Except.ok vectorstore)

/-- The `RetrievalQA` chain configuration built by `create_rag_chain`
(src/main.py lines 166-193). -/
structure QAChain where
  model : String
  temperature : Nat
  chainType : String
  k : Nat
  returnSourceDocuments : Bool
  vs : VectorStore
deriving DecidableEq, Repr

/-- Translation of `create_rag_chain` (src/main.py lines 166-193):
`ChatOpenAI(model="gpt-3.5-turbo", temperature=0)` and
`RetrievalQA.from_chain_type(chain_type="stuff",
retriever=vectorstore.as_retriever(search_kwargs={"k": 5}),
return_source_documents=True)`. -/
def create_rag_chain (vectorstore : VectorStore) : Proc QAChain :=
  ([Out.info "Creating RAG chain...",
    Out.success "RAG chain created successfully"],
   Except.ok
     { model := "gpt-3.5-turbo"
       temperature := 0
       chainType := "stuff"
       k := 5
       returnSourceDocuments := true
       vs := vectorstore })

/-- The startup branch of `main` (src/main.py lines 205-216): load the
vectorstore from disk when the "vectorstore" path exists, otherwise build
it on demand with the load/split/create steps of this script. -/
def setupVectorstore (w : World) : Proc VectorStore :=
  if w.pathExists "vectorstore" = true then
    pbind ([Out.info "Found existing vectorstore, loading..."], Except.ok true) fun _ =>
    load_vectorstore w
  else
    pbind ([Out.warning "No vectorstore found, creating new one...",
            Out.warning "This will take a while and consume API credits."],
           Except.ok true) fun _ =>
    pbind (load_documents w) fun docs =>
    pbind (split_documents w docs) fun chunks =>
    create_vectorstore w chunks

/-- The startup of `main` (src/main.py lines 201-219): validate the
environment, obtain the vectorstore, build the RAG chain.  The opening
banner precedes this and the ready banner follows it (see `mainRun`). -/
def init (w : World) : Proc QAChain :=
  pbind (validate_environment w) fun _ =>
  pbind (setupVectorstore w) fun vs =>
  create_rag_chain vs

/-- The result dict of one `qa_chain({"query": ...})` call:
`result` and `source_documents`. -/
structure QAResult where
  result : String
  source_documents : List Document
deriving DecidableEq, Repr

/-- One invocation of the third-party `RetrievalQA` "stuff" chain, as the
spec describes the query pipeline: the retriever returns the top-`k`
chunks for the query and the question plus those chunks go to the remote
chat model; with `return_source_documents=True` the retrieved chunks come
back in the result.  A raised exception is the `error` case of the oracle. -/
def qaInvoke (w : World) (c : QAChain) (query : String) :
    List Out × Except String QAResult :=
  ([Out.effect (Eff.retrieveCall c.k query),
    Out.effect (Eff.chatCall c.model query (w.retrieve c.vs c.k query))],
   match w.chatComplete c.model query (w.retrieve c.vs c.k query) with
   | Except.error e => Except.error e
   | Except.ok answer =>
     Except.ok
       { result := answer
         source_documents :=
           if c.returnSourceDocuments = true then w.retrieve c.vs c.k query
           else [] })

/-- The 70-dash separator printed around an answer. -/
def dashSep : String :=
  "----------------------------------------------------------------------"

/-- Inputs the interactive loop can receive: a line from `input()`, or a
`KeyboardInterrupt`. -/
inductive Inp where
  | line (s : String)
  | ctrlC
deriving DecidableEq, Repr

/-- One iteration of the interactive Q&A loop of `main` (src/main.py lines
233-282): strip the line; skip empty input; exit commands; clear commands;
otherwise invoke the QA chain, count and print the answer on success
(plus the number of source documents when there are any), or print the
messages of the per-question error handler and continue on failure.  Returns
the trace of the iteration, the updated `question_count`, and whether the loop
breaks. -/
def loopStep (w : World) (c : QAChain) (question_count : Nat) (i : Inp) :
    List Out × Nat × Bool :=
  match i with
  | Inp.ctrlC =>
    ([Out.warning "Interrompido pelo usuário"], question_count, true)
  | Inp.line raw =>
    let query := pyStrip raw
    if query = "" then
      ([], question_count, false)
    else if pyLower query = "sair" ∨ pyLower query = "exit" ∨ pyLower query = "quit" then
      ([Out.success ("Encerrando JURISRAG. " ++ (toString question_count ++ " perguntas respondidas. Até logo!"))],
       question_count, true)
    else if pyLower query = "limpar" ∨ pyLower query = "clear" ∨ pyLower query = "cls" then
      ([Out.effect Eff.clearScreen], question_count, false)
    else
      match qaInvoke w c query with
      | (qo, Except.error e) =>
        (Out.info "Processando sua pergunta..." :: qo ++
          [Out.error ("Erro ao processar pergunta: " ++ e),
           Out.warning "Tente fazer a pergunta de outra forma."],
         question_count, false)
      | (qo, Except.ok r) =>
        (Out.info "Processando sua pergunta..." :: qo ++
          [Out.colored "📝 Resposta:",
           Out.colored dashSep,
           Out.plain r.result,
           Out.colored dashSep] ++
          (if r.source_documents = [] then []
           else [Out.info ("Baseado em " ++ (toString r.source_documents.length ++ " documentos relevantes"))]),
         question_count + 1, false)

/-- The interactive loop run over a finite script of inputs, accumulating
the trace and threading `question_count`. -/
def runLoop (w : World) (c : QAChain) : Nat → List Inp → List Out × Nat
  | count, [] => ([], count)
  | count, i :: rest =>
    match loopStep w c count i with
    | (o, count2, true) => (o, count2)
    | (o, count2, false) =>
      ((o ++ (runLoop w c count2 rest).1), (runLoop w c count2 rest).2)

/-- The whole of `main` (src/main.py lines 195-288): opening banner,
startup (`init`), ready banner and instructions, then the interactive
loop; the result is the final `question_count`. -/
def mainRun (w : World) (inps : List Inp) : Proc Nat :=
  pbind (Out.header "📚 JURISRAG - Sistema de Perguntas e Respostas Jurídicas" ::
           (init w).1, (init w).2) fun c =>
  pbind ([Out.header "✅ JURISRAG está pronto para responder perguntas!",
          Out.colored "Instruções:",
          Out.plain "  • Digite sua pergunta sobre legislação brasileira",
          Out.plain "  • Digite sair para encerrar o programa",
          Out.plain "  • Digite limpar para limpar a tela"],
         Except.ok true) fun _ =>
  ((runLoop w c 0 inps).1, Except.ok (runLoop w c 0 inps).2)

end JurisRAG.Main

namespace JurisRAG

/-- The claim-as-written reading of "the source list is printed": every
cited source document is shown to the user, in the sense that its source
metadata occurs inside some printed line of the trace. -/
def sourcesListed (trace : List Out) (docs : List Document) : Bool :=
  docs.all fun d => trace.any fun o => listInfixOf d.metadata.data (Out.shownText o).data

/-- A fixture document for concrete runs. -/
def testDoc : Document := ⟨"Art. 1 A lei vale.", "lei_teste.docx"⟩

/-- A fixture vector store handle for concrete runs. -/
def testVS : VectorStore := ⟨7⟩

/-- A fixture world in which every external call succeeds and every path
exists. -/
def wOK : World where
  env := fun _ => some "sk-test-123"
  pathExists := fun _ => true
  rglobDocx := fun _ => ["a.docx"]
  loaderLoad := fun _ _ _ => Except.ok [testDoc]
  splitterRun := fun _ ds => Except.ok ds
  faissFromDocuments := fun _ => Except.ok testVS
  savedDirOk := true
  faissLoadLocal := fun _ => Except.ok testVS
  retrieve := fun _ _ _ => [testDoc]
  chatComplete := fun _ _ _ => Except.ok "Resposta de teste."

/-- The QA chain `create_rag_chain` builds over `testVS`. -/
def chainOK : Main.QAChain :=
  { model := "gpt-3.5-turbo", temperature := 0, chainType := "stuff",
    k := 5, returnSourceDocuments := true, vs := testVS }

/-- Like `wOK` but the "vectorstore" path does not exist. -/
def wNoStore : World :=
  { wOK with pathExists := fun p => !(p == "vectorstore") }

/-- Like `wOK` but with no API key in the environment. -/
def wBadKey : World :=
  { wOK with env := fun _ => none }

/-- Like `wOK` but the chat-completion call raises. -/
def wChatFail : World :=
  { wOK with chatComplete := fun _ _ _ => Except.error "falha de rede" }

/-- First fixture document for the loader-order counterexample. -/
def docA : Document := ⟨"Art. 1 Primeira parte.", "parte1.docx"⟩

/-- Second fixture document for the loader-order counterexample. -/
def docB : Document := ⟨"Art. 2 Segunda parte.", "parte2.docx"⟩

/-- A world, consistent with the external library contract, in which the
multithreaded DirectoryLoader used by load.py returns the corpus in a
different order than the sequential loader used by main.py (multithreaded
loading does not guarantee document order), and the built index depends
on the order in which the chunks are inserted. -/
def wOrder : World where
  env := fun _ => some "sk-test-123"
  pathExists := fun p => !(p == "vectorstore")
  rglobDocx := fun _ => ["parte1.docx", "parte2.docx"]
  loaderLoad := fun _ _ multithreading =>
    if multithreading = true then Except.ok [docA, docB]
    else Except.ok [docB, docA]
  splitterRun := fun _ ds => Except.ok ds
  faissFromDocuments := fun ds =>
    if ds = [docA, docB] then Except.ok ⟨1⟩ else Except.ok ⟨2⟩
  savedDirOk := true
  faissLoadLocal := fun _ => Except.ok testVS
  retrieve := fun _ _ _ => [docA]
  chatComplete := fun _ _ _ => Except.ok "Resposta de teste."

/-- Two strings differ when the first is a literal-prefix concatenation
whose literal is not a prefix of the second. -/
theorem append_ne {a t : String} (e : String) (h : ¬ (a.data <+: t.data)) :
    a ++ e ≠ t := by
  intro heq
  apply h
  have h2 : a.data ++ e.data = t.data := by
    rw [← heq]; cases a; cases e; rfl
  rw [← h2]
  exact List.prefix_append _ _

/-- Result of a sequenced step: success means both halves succeeded. -/
theorem pbind_ok_iff {α β : Type} (x : Proc α) (f : α → Proc β) (b : β) :
    (pbind x f).2 = Except.ok b ↔
      ∃ a, x.2 = Except.ok a ∧ (f a).2 = Except.ok b := by
  unfold pbind
  cases hx : x.2 <;> simp

/-- Trace of a sequenced step whose first half succeeded. -/
theorem pbind_fst_ok {α β : Type} {x : Proc α} (f : α → Proc β) {a : α}
    (h : x.2 = Except.ok a) : (pbind x f).1 = x.1 ++ (f a).1 := by
  unfold pbind
  rw [h]

/-- Trace of a sequenced step whose first half exited. -/
theorem pbind_fst_err {α β : Type} {x : Proc α} (f : α → Proc β) {c : Nat}
    (h : x.2 = Except.error c) : (pbind x f).1 = x.1 := by
  unfold pbind
  rw [h]

end JurisRAG

namespace JurisRAG

/-- C5: document splitting in both scripts delegates to a
`RecursiveCharacterTextSplitter` configured with `chunk_size = 1000`
characters, `chunk_overlap = 200` characters and character count (`len`)
as the length function; with the default arguments every run of
`split_documents` calls the splitter with exactly this configuration, and
a successful run returns precisely the (non-empty) chunk list of the
splitter. -/
theorem claim5_chunking_cfg (w : World) (documents : List Document) :
    (splitCfg 1000 200).chunkSize = 1000 ∧
    (splitCfg 1000 200).chunkOverlap = 200 ∧
    (splitCfg 1000 200).lengthFn = String.length ∧
    Out.effect (Eff.splitterCall 1000 200) ∈ (Main.split_documents w documents).1 ∧
    Out.effect (Eff.splitterCall 1000 200) ∈ (Load.split_documents w documents).1 ∧
    (∀ cs, (Main.split_documents w documents).2 = Except.ok cs →
      w.splitterRun (splitCfg 1000 200) documents = Except.ok cs ∧ cs ≠ []) ∧
    (∀ cs, (Load.split_documents w documents).2 = Except.ok cs →
      w.splitterRun (splitCfg 1000 200) documents = Except.ok cs ∧ cs ≠ []) := by
  refine ⟨rfl, rfl, rfl, ?_, ?_, ?_, ?_⟩
  · cases hs : w.splitterRun (splitCfg 1000 200) documents with
    | error e => simp [Main.split_documents, hs]
    | ok chunks =>
      by_cases hc : chunks = [] <;> simp [Main.split_documents, hs, hc]
  · cases hs : w.splitterRun (splitCfg 1000 200) documents with
    | error e => simp [Load.split_documents, hs]
    | ok chunks =>
      by_cases hc : chunks = [] <;> simp [Load.split_documents, hs, hc]
  · intro cs h
    cases hs : w.splitterRun (splitCfg 1000 200) documents with
    | error e => simp [Main.split_documents, hs] at h
    | ok chunks =>
      by_cases hc : chunks = []
      · simp [Main.split_documents, hs, hc] at h
      · simp [Main.split_documents, hs, hc] at h
        subst h
        exact ⟨rfl, hc⟩
  · intro cs h
    cases hs : w.splitterRun (splitCfg 1000 200) documents with
    | error e => simp [Load.split_documents, hs] at h
    | ok chunks =>
      by_cases hc : chunks = []
      · simp [Load.split_documents, hs, hc] at h
      · simp [Load.split_documents, hs, hc] at h
        subst h
        exact ⟨rfl, hc⟩

/-- Witness for C5 at a concrete world and document list. -/
theorem claim5_witness :
    Out.effect (Eff.splitterCall 1000 200) ∈ (Main.split_documents wOK [testDoc]).1 ∧
    (wOK.splitterRun (splitCfg 1000 200) [testDoc] = Except.ok [testDoc] ∧
      ([testDoc] : List Document) ≠ []) :=
  ⟨(claim5_chunking_cfg wOK [testDoc]).2.2.2.1,
   (claim5_chunking_cfg wOK [testDoc]).2.2.2.2.2.1 [testDoc] rfl⟩

/-- C9: an iteration of the interactive loop whose input line is empty
after stripping does nothing: the QA chain is not invoked, nothing is
printed, `question_count` is unchanged, and the loop goes on to the next
prompt (it does not break). -/
theorem claim9_empty_input (w : World) (c : Main.QAChain) (n : Nat)
    (raw : String) (h : pyStrip raw = "") :
    Main.loopStep w c n (Main.Inp.line raw) = ([], n, false) := by
  simp [Main.loopStep, h]

/-- Witness for C9 at a whitespace-only input line. -/
theorem claim9_witness :
    Main.loopStep wOK chainOK 3 (Main.Inp.line "   ") = ([], 3, false) :=
  claim9_empty_input wOK chainOK 3 "   " (by decide)

/-- C8: an exception while processing a single question does not end the
session: the iteration prints the per-question error message and the
try-again warning, `question_count` is unchanged, the loop does not
break, and the rest of the input script is processed exactly as if the
failed question had not happened. -/
theorem claim8_error_continues (w : World) (c : Main.QAChain) (n : Nat)
    (raw e : String)
    (h0 : pyStrip raw ≠ "")
    (h1 : ¬(pyLower (pyStrip raw) = "sair" ∨ pyLower (pyStrip raw) = "exit" ∨
            pyLower (pyStrip raw) = "quit"))
    (h2 : ¬(pyLower (pyStrip raw) = "limpar" ∨ pyLower (pyStrip raw) = "clear" ∨
            pyLower (pyStrip raw) = "cls"))
    (hchat : w.chatComplete c.model (pyStrip raw)
               (w.retrieve c.vs c.k (pyStrip raw)) = Except.error e) :
    (Main.loopStep w c n (Main.Inp.line raw)).2.1 = n ∧
    (Main.loopStep w c n (Main.Inp.line raw)).2.2 = false ∧
    Out.error ("Erro ao processar pergunta: " ++ e) ∈
      (Main.loopStep w c n (Main.Inp.line raw)).1 ∧
    Out.warning "Tente fazer a pergunta de outra forma." ∈
      (Main.loopStep w c n (Main.Inp.line raw)).1 ∧
    ∀ rest, Main.runLoop w c n (Main.Inp.line raw :: rest) =
      ((Main.loopStep w c n (Main.Inp.line raw)).1 ++
        (Main.runLoop w c n rest).1,
       (Main.runLoop w c n rest).2) := by
  refine ⟨?_, ?_, ?_, ?_, ?_⟩ <;>
    simp [Main.loopStep, Main.runLoop, Main.qaInvoke, h0, h1, h2, hchat]

/-- Witness for C8 at a concrete failing chat call. -/
theorem claim8_witness :
    (Main.loopStep wChatFail chainOK 3 (Main.Inp.line "pergunta")).2.1 = 3 ∧
    Out.error ("Erro ao processar pergunta: " ++ "falha de rede") ∈
      (Main.loopStep wChatFail chainOK 3 (Main.Inp.line "pergunta")).1 :=
  ⟨(claim8_error_continues wChatFail chainOK 3 "pergunta" "falha de rede"
      (by decide) (by decide) (by decide) rfl).1,
   (claim8_error_continues wChatFail chainOK 3 "pergunta" "falha de rede"
      (by decide) (by decide) (by decide) rfl).2.2.1⟩

end JurisRAG

namespace JurisRAG

/-- C1: the RAG chain is configured with `search_kwargs {"k": 5}` (and the
gpt-3.5-turbo chat model) over the supplied vectorstore — in particular
any chain `main` starts the loop with has `k = 5` — and for every real
question entered in the interactive loop (non-empty after stripping, not
an exit or clear command) the iteration retrieves the top-5 chunks for
the stripped question from the vector index and forwards the question
together with exactly those retrieved chunks to the remote chat-completion
model. -/
theorem claim1_topk_retrieval (w : World) (vs : VectorStore)
    (c : Main.QAChain) (n : Nat) (raw : String)
    (hc : (Main.create_rag_chain vs).2 = Except.ok c)
    (h0 : pyStrip raw ≠ "")
    (h1 : ¬(pyLower (pyStrip raw) = "sair" ∨ pyLower (pyStrip raw) = "exit" ∨
            pyLower (pyStrip raw) = "quit"))
    (h2 : ¬(pyLower (pyStrip raw) = "limpar" ∨ pyLower (pyStrip raw) = "clear" ∨
            pyLower (pyStrip raw) = "cls")) :
    c.k = 5 ∧ c.model = "gpt-3.5-turbo" ∧ c.vs = vs ∧
    (∀ c2, (Main.init w).2 = Except.ok c2 → c2.k = 5) ∧
    Out.effect (Eff.retrieveCall 5 (pyStrip raw)) ∈
      (Main.loopStep w c n (Main.Inp.line raw)).1 ∧
    Out.effect (Eff.chatCall "gpt-3.5-turbo" (pyStrip raw)
        (w.retrieve vs 5 (pyStrip raw))) ∈
      (Main.loopStep w c n (Main.Inp.line raw)).1 := by
  have hcrec : c = ⟨"gpt-3.5-turbo", 0, "stuff", 5, true, vs⟩ := by
    simp [Main.create_rag_chain] at hc
    exact hc.symm
  subst hcrec
  refine ⟨rfl, rfl, rfl, ?_, ?_, ?_⟩
  · intro c2 h
    obtain ⟨b, hb, h⟩ := (pbind_ok_iff _ _ _).mp h
    obtain ⟨vs2, hvs2, h⟩ := (pbind_ok_iff _ _ _).mp h
    simp [Main.create_rag_chain] at h
    rw [← h]
  · cases hchat : w.chatComplete "gpt-3.5-turbo" (pyStrip raw)
        (w.retrieve vs 5 (pyStrip raw)) <;>
      simp [Main.loopStep, Main.qaInvoke, h0, h1, h2, hchat]
  · cases hchat : w.chatComplete "gpt-3.5-turbo" (pyStrip raw)
        (w.retrieve vs 5 (pyStrip raw)) <;>
      simp [Main.loopStep, Main.qaInvoke, h0, h1, h2, hchat]

/-- Witness for C1 at a concrete world, vectorstore and question. -/
theorem claim1_witness :
    chainOK.k = 5 ∧
    Out.effect (Eff.chatCall "gpt-3.5-turbo" (pyStrip "pergunta")
        (wOK.retrieve testVS 5 (pyStrip "pergunta"))) ∈
      (Main.loopStep wOK chainOK 0 (Main.Inp.line "pergunta")).1 :=
  ⟨(claim1_topk_retrieval wOK testVS chainOK 0 "pergunta" rfl
      (by decide) (by decide) (by decide)).1,
   (claim1_topk_retrieval wOK testVS chainOK 0 "pergunta" rfl
      (by decide) (by decide) (by decide)).2.2.2.2.2⟩

/-- C4 (amended): after every successfully answered question the loop
prints the answer text between separators and, when source documents were
returned, the number of source documents on which the answer is based;
the `question_count` is incremented. -/
theorem claim4_answer_and_source_count (w : World) (c : Main.QAChain)
    (n : Nat) (raw ans : String)
    (h0 : pyStrip raw ≠ "")
    (h1 : ¬(pyLower (pyStrip raw) = "sair" ∨ pyLower (pyStrip raw) = "exit" ∨
            pyLower (pyStrip raw) = "quit"))
    (h2 : ¬(pyLower (pyStrip raw) = "limpar" ∨ pyLower (pyStrip raw) = "clear" ∨
            pyLower (pyStrip raw) = "cls"))
    (hchat : w.chatComplete c.model (pyStrip raw)
               (w.retrieve c.vs c.k (pyStrip raw)) = Except.ok ans)
    (hret : c.returnSourceDocuments = true)
    (hne : w.retrieve c.vs c.k (pyStrip raw) ≠ []) :
    (Main.loopStep w c n (Main.Inp.line raw)).2.1 = n + 1 ∧
    Out.plain ans ∈ (Main.loopStep w c n (Main.Inp.line raw)).1 ∧
    Out.info ("Baseado em " ++
        (toString (w.retrieve c.vs c.k (pyStrip raw)).length ++
          " documentos relevantes")) ∈
      (Main.loopStep w c n (Main.Inp.line raw)).1 := by
  refine ⟨?_, ?_, ?_⟩ <;>
    simp [Main.loopStep, Main.qaInvoke, h0, h1, h2, hchat, hret, hne]

/-- Witness for the amended C4 at a concrete successful answer. -/
theorem claim4_witness :
    (Main.loopStep wOK chainOK 0 (Main.Inp.line "pergunta")).2.1 = 0 + 1 ∧
    Out.plain "Resposta de teste." ∈
      (Main.loopStep wOK chainOK 0 (Main.Inp.line "pergunta")).1 :=
  ⟨(claim4_answer_and_source_count wOK chainOK 0 "pergunta" "Resposta de teste."
      (by decide) (by decide) (by decide) rfl rfl (by decide)).1,
   (claim4_answer_and_source_count wOK chainOK 0 "pergunta" "Resposta de teste."
      (by decide) (by decide) (by decide) rfl rfl (by decide)).2.1⟩

/-- C4 (counterexample to the claim as stated): a concrete successfully
answered question — the count is incremented and the answer text is
printed — whose retrieved source documents are returned with the result,
yet no printed line of the iteration shows the source list: no printed
text contains the source metadata of the (sole) cited document. -/
theorem claim4_counterexample :
    (Main.loopStep wOK chainOK 0 (Main.Inp.line "pergunta")).2.1 = 1 ∧
    Out.plain "Resposta de teste." ∈
      (Main.loopStep wOK chainOK 0 (Main.Inp.line "pergunta")).1 ∧
    wOK.retrieve chainOK.vs chainOK.k (pyStrip "pergunta") = [testDoc] ∧
    testDoc.metadata = "lei_teste.docx" ∧
    sourcesListed (Main.loopStep wOK chainOK 0 (Main.Inp.line "pergunta")).1
      (wOK.retrieve chainOK.vs chainOK.k (pyStrip "pergunta")) = false := by
  refine ⟨by decide, by decide, rfl, rfl, by decide⟩

end JurisRAG

namespace JurisRAG

/-- Facts forced by a successful default run of main.py `load_documents`. -/
theorem main_load_documents_ok {w : World} {docs : List Document}
    (h : (Main.load_documents w).2 = Except.ok docs) :
    w.pathExists Main.dataDirDefault = true ∧
    w.loaderLoad Main.dataDirDefault Main.docxGlob false = Except.ok docs ∧
    docs ≠ [] := by
  cases hpd : w.pathExists Main.dataDirDefault with
  | false => simp [Main.load_documents, hpd] at h
  | true =>
    cases hll : w.loaderLoad Main.dataDirDefault Main.docxGlob false with
    | error e => simp [Main.load_documents, hpd, hll] at h
    | ok documents =>
      by_cases hde : documents = []
      · simp [Main.load_documents, hpd, hll, hde] at h
      · simp [Main.load_documents, hpd, hll, hde] at h
        subst h
        exact ⟨rfl, rfl, hde⟩

/-- Facts forced by a successful default run of load.py `load_documents`. -/
theorem load_load_documents_ok {w : World} {docs : List Document}
    (h : (Load.load_documents w).2 = Except.ok docs) :
    w.pathExists Load.dataDirDefault = true ∧
    (w.rglobDocx Load.dataDirDefault).length ≠ 0 ∧
    w.loaderLoad Load.dataDirDefault Load.docxGlob true = Except.ok docs ∧
    docs ≠ [] := by
  cases hpd : w.pathExists Load.dataDirDefault with
  | false => simp [Load.load_documents, hpd] at h
  | true =>
    by_cases hrg : (w.rglobDocx Load.dataDirDefault).length = 0
    · simp [Load.load_documents, hpd, hrg] at h
    · cases hll : w.loaderLoad Load.dataDirDefault Load.docxGlob true with
      | error e => simp [Load.load_documents, hpd, hrg, hll] at h
      | ok documents =>
        by_cases hde : documents = []
        · simp [Load.load_documents, hpd, hrg, hll, hde] at h
        · simp [Load.load_documents, hpd, hrg, hll, hde] at h
          subst h
          exact ⟨rfl, hrg, rfl, hde⟩

/-- Facts forced by a successful default run of main.py `split_documents`. -/
theorem main_split_ok {w : World} {docs chunks : List Document}
    (h : (Main.split_documents w docs).2 = Except.ok chunks) :
    w.splitterRun (splitCfg 1000 200) docs = Except.ok chunks ∧ chunks ≠ [] := by
  cases hs : w.splitterRun (splitCfg 1000 200) docs with
  | error e => simp [Main.split_documents, hs] at h
  | ok cs =>
    by_cases hc : cs = []
    · simp [Main.split_documents, hs, hc] at h
    · simp [Main.split_documents, hs, hc] at h
      subst h
      exact ⟨rfl, hc⟩

/-- Facts forced by a successful default run of load.py `split_documents`. -/
theorem load_split_ok {w : World} {docs chunks : List Document}
    (h : (Load.split_documents w docs).2 = Except.ok chunks) :
    w.splitterRun (splitCfg 1000 200) docs = Except.ok chunks ∧ chunks ≠ [] := by
  cases hs : w.splitterRun (splitCfg 1000 200) docs with
  | error e => simp [Load.split_documents, hs] at h
  | ok cs =>
    by_cases hc : cs = []
    · simp [Load.split_documents, hs, hc] at h
    · simp [Load.split_documents, hs, hc] at h
      subst h
      exact ⟨rfl, hc⟩

/-- Facts forced by a successful run of main.py `create_vectorstore`. -/
theorem main_create_ok {w : World} {chunks : List Document} {vs : VectorStore}
    (h : (Main.create_vectorstore w chunks).2 = Except.ok vs) :
    w.faissFromDocuments chunks = Except.ok vs := by
  cases hf : w.faissFromDocuments chunks with
  | error e => simp [Main.create_vectorstore, hf] at h
  | ok v =>
    simp [Main.create_vectorstore, hf] at h
    rw [h]

/-- Facts forced by a successful run of load.py `create_vectorstore`. -/
theorem load_create_ok {w : World} {chunks : List Document} {vs : VectorStore}
    (h : (Load.create_vectorstore w chunks).2 = Except.ok vs) :
    w.faissFromDocuments chunks = Except.ok vs := by
  cases hf : w.faissFromDocuments chunks with
  | error e => simp [Load.create_vectorstore, hf] at h
  | ok v =>
    cases hsv : w.savedDirOk <;>
      simp [Load.create_vectorstore, hf, hsv] at h <;> rw [h]

/-- Result of `setupVectorstore` in the build-on-demand branch. -/
theorem setup_build_res {w : World} (hp : w.pathExists "vectorstore" = false) :
    (Main.setupVectorstore w).2 =
      (pbind (Main.load_documents w) fun docs =>
       pbind (Main.split_documents w docs) fun chunks =>
       Main.create_vectorstore w chunks).2 := by
  simp [Main.setupVectorstore, hp, pbind]

end JurisRAG

namespace JurisRAG

/-- C2: at startup of the query entry point (given a configured API key so
that startup reaches the branch), when the "vectorstore" path exists the
index is loaded from disk (the load effect happens, no save happens, and
the chain of a successful startup holds exactly the vectorstore
`FAISS.load_local` returned); otherwise it is built on demand (no load
effect happens, and a successful startup ran the full ingestion steps:
documents loaded, chunks split, vectorstore created from them and saved),
and in both cases the vectorstore obtained is the one inside the RAG
chain that startup returns. -/
theorem claim2_startup_branching (w : World)
    (hkey : apiKeyBad (w.env "OPENAI_API_KEY") = false) :
    (w.pathExists "vectorstore" = true →
      Eff.loadLocal "vectorstore" ∈ effectsOf (Main.init w).1 ∧
      Eff.saveLocal "vectorstore" ∉ effectsOf (Main.init w).1 ∧
      (∀ c, (Main.init w).2 = Except.ok c →
        w.faissLoadLocal "vectorstore" = Except.ok c.vs)) ∧
    (w.pathExists "vectorstore" = false →
      Eff.loadLocal "vectorstore" ∉ effectsOf (Main.init w).1 ∧
      (∀ c, (Main.init w).2 = Except.ok c →
        Eff.saveLocal "vectorstore" ∈ effectsOf (Main.init w).1 ∧
        ∃ docs chunks,
          w.loaderLoad Main.dataDirDefault Main.docxGlob false = Except.ok docs ∧
          w.splitterRun (splitCfg 1000 200) docs = Except.ok chunks ∧
          w.faissFromDocuments chunks = Except.ok c.vs)) := by
  have hval : Main.validate_environment w = ([], Except.ok true) := by
    simp [Main.validate_environment, hkey]
  constructor
  · intro hp
    refine ⟨?_, ?_, ?_⟩
    · cases hl : w.faissLoadLocal "vectorstore" <;>
        simp [Main.init, Main.setupVectorstore, Main.load_vectorstore,
              Main.create_rag_chain, pbind, hval, hp, hl, effectsOf]
    · cases hl : w.faissLoadLocal "vectorstore" <;>
        simp [Main.init, Main.setupVectorstore, Main.load_vectorstore,
              Main.create_rag_chain, pbind, hval, hp, hl, effectsOf]
    · intro c h
      cases hl : w.faissLoadLocal "vectorstore" with
      | error e =>
        simp [Main.init, Main.setupVectorstore, Main.load_vectorstore,
              Main.create_rag_chain, pbind, hval, hp, hl] at h
      | ok vs =>
        simp [Main.init, Main.setupVectorstore, Main.load_vectorstore,
              Main.create_rag_chain, pbind, hval, hp, hl] at h
        rw [← h]
  · intro hp
    constructor
    · cases hpd : w.pathExists Main.dataDirDefault with
      | false =>
        simp [Main.init, Main.setupVectorstore, Main.load_documents,
              pbind, hval, hp, hpd, effectsOf]
      | true =>
        cases hll : w.loaderLoad Main.dataDirDefault Main.docxGlob false with
        | error e =>
          simp [Main.init, Main.setupVectorstore, Main.load_documents,
                pbind, hval, hp, hpd, hll, effectsOf]
        | ok documents =>
          by_cases hde : documents = []
          · simp [Main.init, Main.setupVectorstore, Main.load_documents,
                  pbind, hval, hp, hpd, hll, hde, effectsOf]
          · cases hsp : w.splitterRun (splitCfg 1000 200) documents with
            | error e =>
              simp [Main.init, Main.setupVectorstore, Main.load_documents,
                    Main.split_documents, pbind, hval, hp, hpd, hll, hde, hsp,
                    effectsOf]
            | ok chunks =>
              by_cases hce : chunks = []
              · simp [Main.init, Main.setupVectorstore, Main.load_documents,
                      Main.split_documents, pbind, hval, hp, hpd, hll, hde,
                      hsp, hce, effectsOf]
              · cases hfa : w.faissFromDocuments chunks with
                | error e =>
                  simp [Main.init, Main.setupVectorstore, Main.load_documents,
                        Main.split_documents, Main.create_vectorstore, pbind,
                        hval, hp, hpd, hll, hde, hsp, hce, hfa, effectsOf]
                | ok vs =>
                  simp [Main.init, Main.setupVectorstore, Main.load_documents,
                        Main.split_documents, Main.create_vectorstore,
                        Main.create_rag_chain, pbind, hval, hp, hpd, hll, hde,
                        hsp, hce, hfa, effectsOf]
    · intro c h
      unfold Main.init at h
      obtain ⟨b, hb, h⟩ := (pbind_ok_iff _ _ _).mp h
      obtain ⟨vs, hvs, hrag⟩ := (pbind_ok_iff _ _ _).mp h
      rw [setup_build_res hp] at hvs
      obtain ⟨docs, hdocs, hvs⟩ := (pbind_ok_iff _ _ _).mp hvs
      obtain ⟨chunks, hchunks, hcv⟩ := (pbind_ok_iff _ _ _).mp hvs
      obtain ⟨hpd, hll, hde⟩ := main_load_documents_ok hdocs
      obtain ⟨hsp, hce⟩ := main_split_ok hchunks
      have hfa := main_create_ok hcv
      simp [Main.create_rag_chain] at hrag
      constructor
      · simp [Main.init, Main.setupVectorstore, Main.load_documents,
              Main.split_documents, Main.create_vectorstore,
              Main.create_rag_chain, pbind, hval, hp, hpd, hll, hde, hsp,
              hce, hfa, effectsOf]
      · exact ⟨docs, chunks, hll, hsp, by rw [← hrag]; exact hfa⟩

end JurisRAG

namespace JurisRAG

/-- Witness for C2 at a concrete world whose "vectorstore" path exists. -/
theorem claim2_witness :
    Eff.loadLocal "vectorstore" ∈ effectsOf (Main.init wOK).1 ∧
    wOK.faissLoadLocal "vectorstore" = Except.ok chainOK.vs :=
  ⟨((claim2_startup_branching wOK (by decide)).1 rfl).1,
   ((claim2_startup_branching wOK (by decide)).1 rfl).2.2 chainOK rfl⟩

/-- C3: a successful run of the ingestion entry point performs exactly the
steps directory scan, document parse, chunk split, batch embedding with
index build, and persistence of the index to the "vectorstore" directory,
in exactly this order — and the save of the index happens strictly before
the pipeline prints its success banner. -/
theorem claim3_ingestion_order (w : World)
    (hkey : apiKeyBad (w.env "OPENAI_API_KEY") = false)
    (hdir : w.pathExists Load.dataDirDefault = true)
    (hfiles : (w.rglobDocx Load.dataDirDefault).length ≠ 0)
    (docs chunks : List Document) (vs : VectorStore)
    (hload : w.loaderLoad Load.dataDirDefault Load.docxGlob true = Except.ok docs)
    (hdocs : docs ≠ [])
    (hsplit : w.splitterRun (splitCfg 1000 200) docs = Except.ok chunks)
    (hchunks : chunks ≠ [])
    (hfaiss : w.faissFromDocuments chunks = Except.ok vs)
    (hsaved : w.savedDirOk = true) :
    effectsOf (Load.pipeline w).1 =
      [Eff.scanDir Load.dataDirDefault,
       Eff.loaderLoad Load.dataDirDefault Load.docxGlob true,
       Eff.splitterCall 1000 200,
       Eff.embedAndBuild chunks.length,
       Eff.saveLocal "vectorstore"] ∧
    (Load.pipeline w).2 = Except.ok vs ∧
    List.Sublist
      [Out.effect (Eff.saveLocal "vectorstore"),
       Out.header "🎉 SUCCESS! Vectorstore created and saved successfully"]
      (Load.pipeline w).1 := by
  refine ⟨?_, ?_, ?_⟩
  · simp [Load.pipeline, Load.validate_environment, Load.load_documents,
          Load.split_documents, Load.create_vectorstore, pbind, hkey, hdir,
          hfiles, hload, hdocs, hsplit, hchunks, hfaiss, hsaved, effectsOf]
  · simp [Load.pipeline, Load.validate_environment, Load.load_documents,
          Load.split_documents, Load.create_vectorstore, pbind, hkey, hdir,
          hfiles, hload, hdocs, hsplit, hchunks, hfaiss, hsaved]
  · simp [Load.pipeline, Load.validate_environment, Load.load_documents,
          Load.split_documents, Load.create_vectorstore, pbind, hkey, hdir,
          hfiles, hload, hdocs, hsplit, hchunks, hfaiss, hsaved]
    repeat first
      | exact List.nil_sublist _
      | refine List.Sublist.cons₂ _ ?_
      | refine List.Sublist.cons _ ?_

/-- Witness for C3 at a concrete all-successful world. -/
theorem claim3_witness :
    effectsOf (Load.pipeline wOK).1 =
      [Eff.scanDir Load.dataDirDefault,
       Eff.loaderLoad Load.dataDirDefault Load.docxGlob true,
       Eff.splitterCall 1000 200,
       Eff.embedAndBuild 1,
       Eff.saveLocal "vectorstore"] ∧
    (Load.pipeline wOK).2 = Except.ok testVS :=
  ⟨(claim3_ingestion_order wOK (by decide) rfl (by decide) [testDoc] [testDoc]
      testVS rfl (by decide) rfl (by decide) rfl rfl).1,
   (claim3_ingestion_order wOK (by decide) rfl (by decide) [testDoc] [testDoc]
      testVS rfl (by decide) rfl (by decide) rfl rfl).2.1⟩

end JurisRAG

namespace JurisRAG

/-- C6: each of the enumerated failures of the ingestion and query
pipelines — missing or placeholder API key, missing data directory, no
.docx files found, no documents or no chunks produced, a splitter,
embedding or vectorstore error, and a missing or corrupt saved
vectorstore — makes the affected entry point print a message reporting
the failure and terminate with exit code 1 (the no-content case of the
ingestion script reports through its warning channel, all others through
the error channel). -/
theorem claim6_failures_exit_one :
    (∀ w, apiKeyBad (w.env "OPENAI_API_KEY") = true →
      ((Load.validate_environment w).2 = Except.error 1 ∧
        Out.error "OpenAI API key not configured!" ∈ (Load.validate_environment w).1) ∧
      ((Main.validate_environment w).2 = Except.error 1 ∧
        Out.error "OpenAI API key not configured!" ∈ (Main.validate_environment w).1)) ∧
    (∀ w d, w.pathExists d = false →
      ((Load.load_documents w d).2 = Except.error 1 ∧
        Out.error ("Directory not found: " ++ d) ∈ (Load.load_documents w d).1) ∧
      ((Main.load_documents w d).2 = Except.error 1 ∧
        Out.error ("Directory not found: " ++ d) ∈ (Main.load_documents w d).1)) ∧
    (∀ w d, w.pathExists d = true → (w.rglobDocx d).length = 0 →
      (Load.load_documents w d).2 = Except.error 1 ∧
      Out.error ("No .docx files found in " ++ d) ∈ (Load.load_documents w d).1) ∧
    (∀ w d, w.pathExists d = true → (w.rglobDocx d).length ≠ 0 →
      w.loaderLoad d Load.docxGlob true = Except.ok [] →
      (Load.load_documents w d).2 = Except.error 1 ∧
      Out.warning "Files found but no content loaded" ∈ (Load.load_documents w d).1) ∧
    (∀ w d, w.pathExists d = true → w.loaderLoad d Main.docxGlob false = Except.ok [] →
      (Main.load_documents w d).2 = Except.error 1 ∧
      Out.error "No documents loaded" ∈ (Main.load_documents w d).1) ∧
    (∀ w docs e, w.splitterRun (splitCfg 1000 200) docs = Except.error e →
      ((Load.split_documents w docs).2 = Except.error 1 ∧
        Out.error ("Error splitting documents: " ++ e) ∈ (Load.split_documents w docs).1) ∧
      ((Main.split_documents w docs).2 = Except.error 1 ∧
        Out.error ("Error splitting documents: " ++ e) ∈ (Main.split_documents w docs).1)) ∧
    (∀ w docs, w.splitterRun (splitCfg 1000 200) docs = Except.ok [] →
      ((Load.split_documents w docs).2 = Except.error 1 ∧
        Out.error "No chunks created from documents" ∈ (Load.split_documents w docs).1) ∧
      ((Main.split_documents w docs).2 = Except.error 1 ∧
        Out.error "No chunks created" ∈ (Main.split_documents w docs).1)) ∧
    (∀ w chunks e, w.faissFromDocuments chunks = Except.error e →
      ((Load.create_vectorstore w chunks).2 = Except.error 1 ∧
        Out.error ("Error creating vectorstore: " ++ e) ∈ (Load.create_vectorstore w chunks).1) ∧
      ((Main.create_vectorstore w chunks).2 = Except.error 1 ∧
        Out.error ("Error creating vectorstore: " ++ e) ∈ (Main.create_vectorstore w chunks).1)) ∧
    (∀ w, w.pathExists "vectorstore" = false →
      (Main.load_vectorstore w).2 = Except.error 1 ∧
      Out.error "Vectorstore not found!" ∈ (Main.load_vectorstore w).1) ∧
    (∀ w e, w.pathExists "vectorstore" = true →
      w.faissLoadLocal "vectorstore" = Except.error e →
      (Main.load_vectorstore w).2 = Except.error 1 ∧
      Out.error ("Error loading vectorstore: " ++ e) ∈ (Main.load_vectorstore w).1) := by
  refine ⟨?_, ?_, ?_, ?_, ?_, ?_, ?_, ?_, ?_, ?_⟩
  · intro w hk
    simp [Load.validate_environment, Main.validate_environment, hk]
  · intro w d hp
    simp [Load.load_documents, Main.load_documents, hp]
  · intro w d hp hrg
    simp [Load.load_documents, hp, hrg]
  · intro w d hp hrg hll
    simp [Load.load_documents, hp, hrg, hll]
  · intro w d hp hll
    simp [Main.load_documents, hp, hll]
  · intro w docs e hs
    simp [Load.split_documents, Main.split_documents, hs]
  · intro w docs hs
    simp [Load.split_documents, Main.split_documents, hs]
  · intro w chunks e hf
    simp [Load.create_vectorstore, Main.create_vectorstore, hf]
  · intro w hp
    simp [Main.load_vectorstore, hp]
  · intro w e hp hl
    simp [Main.load_vectorstore, hp, hl]

/-- Witness for C6: the API-key and missing-vectorstore failures at
concrete worlds. -/
theorem claim6_witness :
    ((Main.validate_environment wBadKey).2 = Except.error 1 ∧
      Out.error "OpenAI API key not configured!" ∈ (Main.validate_environment wBadKey).1) ∧
    ((Main.load_vectorstore wNoStore).2 = Except.error 1 ∧
      Out.error "Vectorstore not found!" ∈ (Main.load_vectorstore wNoStore).1) :=
  ⟨(claim6_failures_exit_one.1 wBadKey rfl).2,
   (claim6_failures_exit_one.2.2.2.2.2.2.2.2.1 wNoStore (by decide))⟩

end JurisRAG

namespace JurisRAG

/-- C7 (amended): the standalone ingestion entry point and the on-demand
build of the query entry point share the pipeline — same default data
directory, same glob and loader class, same chunking parameters
(1000/200), same embedding call, same "vectorstore" persistence path —
except that the DirectoryLoader of load.py passes
`use_multithreading=True` while the one of main.py does not; whenever
both succeed on the same world and loading with and without
multithreading returns the same document list, both produce the very
same persisted index. -/
theorem claim7_shared_pipeline (w : World) (v1 v2 : VectorStore)
    (hvs : w.pathExists "vectorstore" = false)
    (hmt : w.loaderLoad Load.dataDirDefault Load.docxGlob true =
           w.loaderLoad Load.dataDirDefault Load.docxGlob false)
    (h1 : (Load.pipeline w).2 = Except.ok v1)
    (h2 : (Main.setupVectorstore w).2 = Except.ok v2) :
    Load.dataDirDefault = Main.dataDirDefault ∧
    Load.docxGlob = Main.docxGlob ∧
    Load.loaderCls = Main.loaderCls ∧
    v1 = v2 ∧
    Eff.saveLocal "vectorstore" ∈ effectsOf (Load.pipeline w).1 ∧
    Eff.saveLocal "vectorstore" ∈ effectsOf (Main.setupVectorstore w).1 ∧
    Eff.splitterCall 1000 200 ∈ effectsOf (Load.pipeline w).1 ∧
    Eff.splitterCall 1000 200 ∈ effectsOf (Main.setupVectorstore w).1 ∧
    Eff.loaderLoad Load.dataDirDefault Load.docxGlob true ∈
      effectsOf (Load.pipeline w).1 ∧
    Eff.loaderLoad Main.dataDirDefault Main.docxGlob false ∈
      effectsOf (Main.setupVectorstore w).1 := by
  unfold Load.pipeline at h1
  obtain ⟨b1, hval1, h1⟩ := (pbind_ok_iff _ _ _).mp h1
  obtain ⟨docs1, hld1, h1⟩ := (pbind_ok_iff _ _ _).mp h1
  obtain ⟨chunks1, hsp1, h1⟩ := (pbind_ok_iff _ _ _).mp h1
  obtain ⟨vv1, hcv1, h1⟩ := (pbind_ok_iff _ _ _).mp h1
  simp at h1
  subst h1
  obtain ⟨hpd1, hrg1, hll1, hde1⟩ := load_load_documents_ok hld1
  obtain ⟨hsr1, hce1⟩ := load_split_ok hsp1
  have hfa1 := load_create_ok hcv1
  have hk : apiKeyBad (w.env "OPENAI_API_KEY") = false := by
    by_cases hk0 : apiKeyBad (w.env "OPENAI_API_KEY") = true
    · simp [Load.validate_environment, hk0] at hval1
    · simpa using hk0
  rw [setup_build_res hvs] at h2
  obtain ⟨docs2, hld2, h2⟩ := (pbind_ok_iff _ _ _).mp h2
  obtain ⟨chunks2, hsp2, hcv2⟩ := (pbind_ok_iff _ _ _).mp h2
  obtain ⟨hpd2, hll2, hde2⟩ := main_load_documents_ok hld2
  obtain ⟨hsr2, hce2⟩ := main_split_ok hsp2
  have hfa2 := main_create_ok hcv2
  have hll1f : w.loaderLoad Main.dataDirDefault Main.docxGlob false =
      Except.ok docs1 := by
    have hstep : w.loaderLoad Load.dataDirDefault Load.docxGlob false =
        Except.ok docs1 := by rw [← hmt]; exact hll1
    exact hstep
  rw [hll1f] at hll2
  simp at hll2
  subst hll2
  rw [hsr1] at hsr2
  simp at hsr2
  subst hsr2
  rw [hfa1] at hfa2
  simp at hfa2
  subst hfa2
  refine ⟨rfl, rfl, rfl, rfl, ?_, ?_, ?_, ?_, ?_, ?_⟩
  all_goals
    cases hsv : w.savedDirOk <;>
      simp [Load.pipeline, Load.validate_environment, Load.load_documents,
            Load.split_documents, Load.create_vectorstore,
            Main.setupVectorstore, Main.load_documents, Main.split_documents,
            Main.create_vectorstore, pbind, hk, hvs, hpd1, hrg1, hll1, hde1,
            hsr1, hce1, hfa1, hpd2, hll1f, hsv, effectsOf]

/-- C7 (counterexample to the claim as stated): the two loader calls are
not configured identically — load.py passes `use_multithreading=True`
(src/load.py line 110) while main.py uses the sequential default — so on
a world where the multithreaded load returns the same corpus in a
different order, which the library permits, both entry points succeed on
the same input corpus yet persist different indexes. -/
theorem claim7_counterexample :
    (Load.pipeline wOrder).2 = Except.ok ⟨1⟩ ∧
    (Main.setupVectorstore wOrder).2 = Except.ok ⟨2⟩ ∧
    (⟨1⟩ : VectorStore) ≠ ⟨2⟩ :=
  ⟨rfl, rfl, by decide⟩

end JurisRAG

namespace JurisRAG

/-- Witness for C7 at a concrete world without a saved vectorstore. -/
theorem claim7_witness :
    Load.dataDirDefault = Main.dataDirDefault ∧
    Eff.saveLocal "vectorstore" ∈ effectsOf (Main.setupVectorstore wNoStore).1 :=
  ⟨(claim7_shared_pipeline wNoStore testVS testVS (by decide) rfl rfl rfl).1,
   (claim7_shared_pipeline wNoStore testVS testVS (by decide) rfl rfl rfl).2.2.2.2.2.1⟩

/-- The interactive loop prints errors only through the per-question
handler, never the missing-vectorstore error. -/
theorem loop_no_notfound (w : World) (c : Main.QAChain) (n : Nat)
    (inps : List Main.Inp) :
    "Vectorstore not found!" ∉ errMsgs (Main.runLoop w c n inps).1 := by
  induction inps generalizing n with
  | nil => simp [Main.runLoop, errMsgs]
  | cons i rest ih =>
    have hstep : ∀ m, "Vectorstore not found!" ∉ errMsgs (Main.loopStep w c m i).1 := by
      intro m
      cases i with
      | ctrlC => simp [Main.loopStep, errMsgs]
      | line raw =>
        by_cases h0 : pyStrip raw = ""
        · simp [Main.loopStep, h0, errMsgs]
        · by_cases h1 : (pyLower (pyStrip raw) = "sair" ∨ pyLower (pyStrip raw) = "exit" ∨
              pyLower (pyStrip raw) = "quit")
          · simp [Main.loopStep, h0, h1, errMsgs]
          · by_cases h2 : (pyLower (pyStrip raw) = "limpar" ∨ pyLower (pyStrip raw) = "clear" ∨
                pyLower (pyStrip raw) = "cls")
            · simp [Main.loopStep, h0, h1, h2, errMsgs]
            · cases hchat : w.chatComplete c.model (pyStrip raw)
                  (w.retrieve c.vs c.k (pyStrip raw)) with
              | error e =>
                simp [Main.loopStep, Main.qaInvoke, h0, h1, h2, hchat, errMsgs]
                exact fun hq => append_ne e (by decide) hq.symm
              | ok ans =>
                by_cases hsd :
                    (if c.returnSourceDocuments = true
                     then w.retrieve c.vs c.k (pyStrip raw) else []) = [] <;>
                  simp [Main.loopStep, Main.qaInvoke, h0, h1, h2, hchat, hsd, errMsgs]
    rcases hls : Main.loopStep w c n i with ⟨o, c2, brk⟩
    have ho : "Vectorstore not found!" ∉ errMsgs o := by
      have := hstep n
      rw [hls] at this
      exact this
    cases brk with
    | true => simp only [Main.runLoop, hls]; exact ho
    | false =>
      simp only [Main.runLoop, hls]
      simp [errMsgs] at ho ⊢
      exact ⟨ho, by
        have := ih c2
        simp [errMsgs] at this
        exact this⟩

/-- The startup of main.py never prints the missing-vectorstore error:
the error branch of `load_vectorstore` is guarded by the very same
existence check `main` branches on. -/
theorem init_no_notfound (w : World) :
    "Vectorstore not found!" ∉ errMsgs (Main.init w).1 := by
  by_cases hk : apiKeyBad (w.env "OPENAI_API_KEY") = true
  · simp [Main.init, Main.validate_environment, pbind, hk, errMsgs]
  · cases hp : w.pathExists "vectorstore" with
    | true =>
      cases hl : w.faissLoadLocal "vectorstore" with
      | error e =>
        simp [Main.init, Main.setupVectorstore, Main.load_vectorstore,
              Main.validate_environment, Main.create_rag_chain, pbind, hk,
              hp, hl, errMsgs]
        exact fun hq => append_ne e (by decide) hq.symm
      | ok vs =>
        simp [Main.init, Main.setupVectorstore, Main.load_vectorstore,
              Main.validate_environment, Main.create_rag_chain, pbind, hk,
              hp, hl, errMsgs]
    | false =>
      cases hpd : w.pathExists Main.dataDirDefault with
      | false =>
        simp [Main.init, Main.setupVectorstore, Main.load_documents,
              Main.validate_environment, pbind, hk, hp, hpd, errMsgs]
        exact fun hq => append_ne Main.dataDirDefault (by decide) hq.symm
      | true =>
        cases hll : w.loaderLoad Main.dataDirDefault Main.docxGlob false with
        | error e =>
          simp [Main.init, Main.setupVectorstore, Main.load_documents,
                Main.validate_environment, pbind, hk, hp, hpd, hll, errMsgs]
          exact fun hq => append_ne e (by decide) hq.symm
        | ok documents =>
          by_cases hde : documents = []
          · simp [Main.init, Main.setupVectorstore, Main.load_documents,
                  Main.validate_environment, pbind, hk, hp, hpd, hll, hde,
                  errMsgs]
          · cases hsp : w.splitterRun (splitCfg 1000 200) documents with
            | error e =>
              simp [Main.init, Main.setupVectorstore, Main.load_documents,
                    Main.split_documents, Main.validate_environment, pbind,
                    hk, hp, hpd, hll, hde, hsp, errMsgs]
              exact fun hq => append_ne e (by decide) hq.symm
            | ok chunks =>
              by_cases hce : chunks = []
              · simp [Main.init, Main.setupVectorstore, Main.load_documents,
                      Main.split_documents, Main.validate_environment, pbind,
                      hk, hp, hpd, hll, hde, hsp, hce, errMsgs]
              · cases hfa : w.faissFromDocuments chunks with
                | error e =>
                  simp [Main.init, Main.setupVectorstore, Main.load_documents,
                        Main.split_documents, Main.create_vectorstore,
                        Main.validate_environment, pbind, hk, hp, hpd, hll,
                        hde, hsp, hce, hfa, errMsgs]
                  exact fun hq => append_ne e (by decide) hq.symm
                | ok vs =>
                  simp [Main.init, Main.setupVectorstore, Main.load_documents,
                        Main.split_documents, Main.create_vectorstore,
                        Main.create_rag_chain, Main.validate_environment,
                        pbind, hk, hp, hpd, hll, hde, hsp, hce, hfa, errMsgs]

/-- C10: the query entry point checks for the "vectorstore" path itself
and calls `load_vectorstore` only when it exists, so no run of `main` —
whatever the world and whatever the interactive inputs — ever prints the
"Vectorstore not found!" error of the unreachable branch inside
`load_vectorstore`. -/
theorem claim10_notfound_unreachable (w : World) (inps : List Main.Inp) :
    "Vectorstore not found!" ∉ errMsgs (Main.mainRun w inps).1 := by
  unfold Main.mainRun
  cases hi : (Main.init w).2 with
  | error c =>
    simp [pbind, hi, errMsgs]
    have := init_no_notfound w
    simp [errMsgs] at this
    exact this
  | ok c =>
    simp [pbind, hi, errMsgs]
    refine ⟨?_, ?_⟩
    · have := init_no_notfound w
      simp [errMsgs] at this
      exact this
    · have := loop_no_notfound w c 0 inps
      simp [errMsgs] at this
      exact this

/-- Witness for C10 at a concrete world and empty input script. -/
theorem claim10_witness :
    "Vectorstore not found!" ∉ errMsgs (Main.mainRun wOK []).1 :=
  claim10_notfound_unreachable wOK []

end JurisRAG
